import Mathlib

/-!
Verification development for the rs-clob-client CTF module.

The repository's checked-in sources declare the request and response types
for the Conditional Tokens Framework operations (condition/collection/position
identifier derivation and split/merge/redeem transactions) together with
derived builders. The identifier codec and partition validator that the
specification describes are not part of the checked-in sources; they are
modelled here from the specification and marked as such.

Machine words are embedded as bounded naturals: an address is 20 bytes,
a hash and a 256-bit word are 32 bytes, a block number is 64 bits.
-/

namespace CtfClient

instance : NeZero (2 ^ 160) := ⟨by positivity⟩

instance : NeZero (2 ^ 256) := ⟨by positivity⟩

instance : NeZero (2 ^ 64) := ⟨by positivity⟩

/-- Embedding of the 20-byte account identifier. -/
abbrev Address := Fin (2 ^ 160)

/-- Embedding of the 32-byte digest type B256 of the sources. -/
abbrev Hash256 := Fin (2 ^ 256)

/-- Embedding of the 256-bit unsigned integer type U256 of the sources. -/
abbrev UInt256 := Fin (2 ^ 256)

/-- Embedding of the 64-bit unsigned integer type u64 of the sources. -/
abbrev U64 := Fin (2 ^ 64)

/-- Request to calculate a condition ID, from request.rs. -/
structure ConditionIdRequest where
  oracle : Address
  question_id : Hash256
  outcome_slot_count : UInt256
  deriving DecidableEq

/-- Request to calculate a collection ID, from request.rs. -/
structure CollectionIdRequest where
  parent_collection_id : Hash256
  condition_id : Hash256
  index_set : UInt256
  deriving DecidableEq

/-- Request to calculate a position ID, from request.rs. -/
structure PositionIdRequest where
  collateral_token : Address
  collection_id : Hash256
  deriving DecidableEq

/-- Request to split collateral into outcome tokens, from request.rs. -/
structure SplitPositionRequest where
  collateral_token : Address
  parent_collection_id : Hash256
  condition_id : Hash256
  partition : List UInt256
  amount : UInt256
  deriving DecidableEq

/-- Request to merge outcome tokens back into collateral, from request.rs. -/
structure MergePositionsRequest where
  collateral_token : Address
  parent_collection_id : Hash256
  condition_id : Hash256
  partition : List UInt256
  amount : UInt256
  deriving DecidableEq

/-- Request to redeem winning outcome tokens, from request.rs. -/
structure RedeemPositionsRequest where
  collateral_token : Address
  parent_collection_id : Hash256
  condition_id : Hash256
  index_sets : List UInt256
  deriving DecidableEq

/-- Response carrying a calculated condition ID, from response.rs. -/
structure ConditionIdResponse where
  condition_id : Hash256
  deriving DecidableEq

/-- Response carrying a calculated collection ID, from response.rs. -/
structure CollectionIdResponse where
  collection_id : Hash256
  deriving DecidableEq

/-- Response carrying a calculated position ID, from response.rs. -/
structure PositionIdResponse where
  position_id : UInt256
  deriving DecidableEq

/-- Response from a split position transaction, from response.rs. -/
structure SplitPositionResponse where
  transaction_hash : Hash256
  block_number : U64
  deriving DecidableEq

/-- Response from a merge positions transaction, from response.rs. -/
structure MergePositionsResponse where
  transaction_hash : Hash256
  block_number : U64
  deriving DecidableEq

/-- Response from a redeem positions transaction, from response.rs. -/
structure RedeemPositionsResponse where
  transaction_hash : Hash256
  block_number : U64
  deriving DecidableEq

/-- Enumeration of the six CTF operations whose request and response shapes
the sources declare. -/
inductive CtfOperation where
  | conditionId
  | collectionId
  | positionId
  | split
  | merge
  | redeem
  deriving DecidableEq, Fintype

/-- Builder state for ConditionIdRequest: the derived builder of request.rs
keeps one optional slot per field, none of them defaulted. -/
structure ConditionIdRequestBuilder where
  oracle : Option Address
  question_id : Option Hash256
  outcome_slot_count : Option UInt256

/-- Finishing the ConditionIdRequest builder: every field of the source
struct is required, so an unset field leaves the request unbuildable. -/
def ConditionIdRequestBuilder.build (b : ConditionIdRequestBuilder) :
    Option ConditionIdRequest :=
  match b.oracle, b.question_id, b.outcome_slot_count with
  | some o, some q, some n => some ⟨o, q, n⟩
  | _, _, _ => none

/-- Builder state for CollectionIdRequest. In request.rs none of its fields
carries a builder default, in particular parent_collection_id is required. -/
structure CollectionIdRequestBuilder where
  parent_collection_id : Option Hash256
  condition_id : Option Hash256
  index_set : Option UInt256

/-- Finishing the CollectionIdRequest builder: all three fields, including
parent_collection_id, must have been supplied. -/
def CollectionIdRequestBuilder.build (b : CollectionIdRequestBuilder) :
    Option CollectionIdRequest :=
  match b.parent_collection_id, b.condition_id, b.index_set with
  | some p, some c, some i => some ⟨p, c, i⟩
  | _, _, _ => none

/-- Builder state for PositionIdRequest, both fields required. -/
structure PositionIdRequestBuilder where
  collateral_token : Option Address
  collection_id : Option Hash256

/-- Finishing the PositionIdRequest builder. -/
def PositionIdRequestBuilder.build (b : PositionIdRequestBuilder) :
    Option PositionIdRequest :=
  match b.collateral_token, b.collection_id with
  | some t, some c => some ⟨t, c⟩
  | _, _ => none

/-- Builder state for SplitPositionRequest. In request.rs the field
parent_collection_id is marked with a builder default; the others are
required. -/
structure SplitPositionRequestBuilder where
  collateral_token : Option Address
  parent_collection_id : Option Hash256
  condition_id : Option Hash256
  partition : Option (List UInt256)
  amount : Option UInt256

/-- Finishing the SplitPositionRequest builder: an unset
parent_collection_id falls back to the zero hash, the default of B256. -/
def SplitPositionRequestBuilder.build (b : SplitPositionRequestBuilder) :
    Option SplitPositionRequest :=
  match b.collateral_token, b.condition_id, b.partition, b.amount with
  | some t, some c, some p, some a =>
      some ⟨t, b.parent_collection_id.getD 0, c, p, a⟩
  | _, _, _, _ => none

/-- Builder state for MergePositionsRequest, parent_collection_id
defaulted as in request.rs. -/
structure MergePositionsRequestBuilder where
  collateral_token : Option Address
  parent_collection_id : Option Hash256
  condition_id : Option Hash256
  partition : Option (List UInt256)
  amount : Option UInt256

/-- Finishing the MergePositionsRequest builder: an unset
parent_collection_id falls back to the zero hash. -/
def MergePositionsRequestBuilder.build (b : MergePositionsRequestBuilder) :
    Option MergePositionsRequest :=
  match b.collateral_token, b.condition_id, b.partition, b.amount with
  | some t, some c, some p, some a =>
      some ⟨t, b.parent_collection_id.getD 0, c, p, a⟩
  | _, _, _, _ => none

/-- Builder state for RedeemPositionsRequest, parent_collection_id
defaulted as in request.rs. -/
structure RedeemPositionsRequestBuilder where
  collateral_token : Option Address
  parent_collection_id : Option Hash256
  condition_id : Option Hash256
  index_sets : Option (List UInt256)

/-- Finishing the RedeemPositionsRequest builder: an unset
parent_collection_id falls back to the zero hash. -/
def RedeemPositionsRequestBuilder.build (b : RedeemPositionsRequestBuilder) :
    Option RedeemPositionsRequest :=
  match b.collateral_token, b.condition_id, b.index_sets with
  | some t, some c, some i =>
      some ⟨t, b.parent_collection_id.getD 0, c, i⟩
  | _, _, _ => none

/-- Modelled from the spec: the local validation error taxonomy of section 7
of the specification. The validator and codec bodies are absent from the
checked-in sources, so the taxonomy is taken from the specification. -/
inductive ValidationError where
  | InvalidSlotCount
  | InvalidIndexSet
  | EmptyPartition
  | IndexSetOutOfRange
  | OverlappingIndexSets
  | DuplicateIndexSet
  | ZeroAmount
  deriving DecidableEq

/-- Modelled from the spec: the maximum supported outcome slot width, one
outcome per bit of a 256-bit index set. -/
def MAX_OUTCOME_SLOT_COUNT : Nat := 256

/-- Modelled from the spec: the digest combining oracle, question ID and
slot count. The concrete on-chain digest function is external to this
repository; it is modelled as a deterministic total function of the three
inputs reduced into the 256-bit range. -/
def conditionHash (oracle : Address) (questionId : Hash256)
    (outcomeSlotCount : UInt256) : Hash256 :=
  ⟨(oracle.val + questionId.val + outcomeSlotCount.val) % 2 ^ 256,
    Nat.mod_lt _ (by positivity)⟩

/-- Modelled from the spec: deriveConditionId of the IdentifierCodec.
Rejects slot counts below two or above the maximum supported width with
InvalidSlotCount, and otherwise returns the derived digest. -/
def deriveConditionId (oracle : Address) (questionId : Hash256)
    (outcomeSlotCount : UInt256) : Except ValidationError Hash256 :=
  if outcomeSlotCount.val < 2 ∨ MAX_OUTCOME_SLOT_COUNT < outcomeSlotCount.val then
    .error .InvalidSlotCount
  else
    .ok (conditionHash oracle questionId outcomeSlotCount)

/-- Modelled from the spec: the combination of condition ID and index set
entering the collection digest. The external digest is modelled as a
combination that keeps the specification's requirement that results for
distinct parents stay bit-distinguishable. -/
def collectionMix (conditionId : Hash256) (indexSet : UInt256) : Hash256 :=
  conditionId + indexSet

/-- Modelled from the spec: deriveCollectionId of the IdentifierCodec.
Rejects a zero index set or one at or above 2 to the slot count with
InvalidIndexSet; otherwise combines the parent collection ID with the
condition and index set. -/
def deriveCollectionId (parentCollectionId conditionId : Hash256)
    (indexSet outcomeSlotCount : UInt256) : Except ValidationError Hash256 :=
  if indexSet.val = 0 ∨ 2 ^ outcomeSlotCount.val ≤ indexSet.val then
    .error .InvalidIndexSet
  else
    .ok (parentCollectionId + collectionMix conditionId indexSet)

/-- Modelled from the spec: validate of the PartitionValidator, with the
four checks in the specification's order, short-circuiting: empty
partition, per-entry range, pairwise bitwise disjointness, duplicates. -/
def validate (partition : List UInt256) (outcomeSlotCount : UInt256) :
    Except ValidationError Unit :=
  if partition = [] then
    .error .EmptyPartition
  else if ∃ s ∈ partition, s.val = 0 ∨ 2 ^ outcomeSlotCount.val ≤ s.val then
    .error .IndexSetOutOfRange
  else if ¬ List.Pairwise (fun s t => s.val &&& t.val = 0) partition then
    .error .OverlappingIndexSets
  else if ¬ partition.Nodup then
    .error .DuplicateIndexSet
  else
    .ok ()

end CtfClient

namespace CtfClient

/-- Field content of ConditionIdRequest as a plain tuple. -/
def conditionIdRequestEquiv : ConditionIdRequest ≃ Address × Hash256 × UInt256 where
  toFun r := (r.oracle, r.question_id, r.outcome_slot_count)
  invFun x := ⟨x.1, x.2.1, x.2.2⟩
  left_inv _ := rfl
  right_inv _ := rfl

/-- Field content of CollectionIdRequest as a plain tuple. -/
def collectionIdRequestEquiv : CollectionIdRequest ≃ Hash256 × Hash256 × UInt256 where
  toFun r := (r.parent_collection_id, r.condition_id, r.index_set)
  invFun x := ⟨x.1, x.2.1, x.2.2⟩
  left_inv _ := rfl
  right_inv _ := rfl

/-- Field content of PositionIdRequest as a plain tuple. -/
def positionIdRequestEquiv : PositionIdRequest ≃ Address × Hash256 where
  toFun r := (r.collateral_token, r.collection_id)
  invFun x := ⟨x.1, x.2⟩
  left_inv _ := rfl
  right_inv _ := rfl

/-- Field content of SplitPositionRequest as a plain tuple. -/
def splitPositionRequestEquiv :
    SplitPositionRequest ≃ Address × Hash256 × Hash256 × List UInt256 × UInt256 where
  toFun r := (r.collateral_token, r.parent_collection_id, r.condition_id,
    r.partition, r.amount)
  invFun x := ⟨x.1, x.2.1, x.2.2.1, x.2.2.2.1, x.2.2.2.2⟩
  left_inv _ := rfl
  right_inv _ := rfl

/-- Field content of MergePositionsRequest as a plain tuple. -/
def mergePositionsRequestEquiv :
    MergePositionsRequest ≃ Address × Hash256 × Hash256 × List UInt256 × UInt256 where
  toFun r := (r.collateral_token, r.parent_collection_id, r.condition_id,
    r.partition, r.amount)
  invFun x := ⟨x.1, x.2.1, x.2.2.1, x.2.2.2.1, x.2.2.2.2⟩
  left_inv _ := rfl
  right_inv _ := rfl

/-- Field content of RedeemPositionsRequest as a plain tuple: collateral
token, parent collection ID, condition ID and index sets, with no amount. -/
def redeemPositionsRequestEquiv :
    RedeemPositionsRequest ≃ Address × Hash256 × Hash256 × List UInt256 where
  toFun r := (r.collateral_token, r.parent_collection_id, r.condition_id,
    r.index_sets)
  invFun x := ⟨x.1, x.2.1, x.2.2.1, x.2.2.2⟩
  left_inv _ := rfl
  right_inv _ := rfl

/-- Field content of ConditionIdResponse: exactly one derived hash. -/
def conditionIdResponseEquiv : ConditionIdResponse ≃ Hash256 where
  toFun r := r.condition_id
  invFun x := ⟨x⟩
  left_inv _ := rfl
  right_inv _ := rfl

/-- Field content of CollectionIdResponse: exactly one derived hash. -/
def collectionIdResponseEquiv : CollectionIdResponse ≃ Hash256 where
  toFun r := r.collection_id
  invFun x := ⟨x⟩
  left_inv _ := rfl
  right_inv _ := rfl

/-- Field content of PositionIdResponse: exactly one 256-bit token ID. -/
def positionIdResponseEquiv : PositionIdResponse ≃ UInt256 where
  toFun r := r.position_id
  invFun x := ⟨x⟩
  left_inv _ := rfl
  right_inv _ := rfl

/-- Field content of SplitPositionResponse: transaction hash and block
number only. -/
def splitPositionResponseEquiv : SplitPositionResponse ≃ Hash256 × U64 where
  toFun r := (r.transaction_hash, r.block_number)
  invFun x := ⟨x.1, x.2⟩
  left_inv _ := rfl
  right_inv _ := rfl

/-- Field content of MergePositionsResponse: transaction hash and block
number only. -/
def mergePositionsResponseEquiv : MergePositionsResponse ≃ Hash256 × U64 where
  toFun r := (r.transaction_hash, r.block_number)
  invFun x := ⟨x.1, x.2⟩
  left_inv _ := rfl
  right_inv _ := rfl

/-- Field content of RedeemPositionsResponse: transaction hash and block
number only. -/
def redeemPositionsResponseEquiv : RedeemPositionsResponse ≃ Hash256 × U64 where
  toFun r := (r.transaction_hash, r.block_number)
  invFun x := ⟨x.1, x.2⟩
  left_inv _ := rfl
  right_inv _ := rfl

/-- C2: the core exposes exactly six operation shapes; each identifier
response carries exactly the derived identifier (condition and collection
IDs as 256-bit hashes, position ID as a 256-bit unsigned integer), and each
transaction response carries exactly a transaction hash and a 64-bit block
number. The request shapes carry exactly the fields declared in
request.rs. -/
theorem api_surface_six_shapes :
    Fintype.card CtfOperation = 6 ∧
    Nonempty (ConditionIdRequest ≃ Address × Hash256 × UInt256) ∧
    Nonempty (CollectionIdRequest ≃ Hash256 × Hash256 × UInt256) ∧
    Nonempty (PositionIdRequest ≃ Address × Hash256) ∧
    Nonempty (SplitPositionRequest ≃ Address × Hash256 × Hash256 × List UInt256 × UInt256) ∧
    Nonempty (MergePositionsRequest ≃ Address × Hash256 × Hash256 × List UInt256 × UInt256) ∧
    Nonempty (RedeemPositionsRequest ≃ Address × Hash256 × Hash256 × List UInt256) ∧
    Nonempty (ConditionIdResponse ≃ Hash256) ∧
    Nonempty (CollectionIdResponse ≃ Hash256) ∧
    Nonempty (PositionIdResponse ≃ UInt256) ∧
    Nonempty (SplitPositionResponse ≃ Hash256 × U64) ∧
    Nonempty (MergePositionsResponse ≃ Hash256 × U64) ∧
    Nonempty (RedeemPositionsResponse ≃ Hash256 × U64) :=
  ⟨rfl, ⟨conditionIdRequestEquiv⟩, ⟨collectionIdRequestEquiv⟩,
    ⟨positionIdRequestEquiv⟩, ⟨splitPositionRequestEquiv⟩,
    ⟨mergePositionsRequestEquiv⟩, ⟨redeemPositionsRequestEquiv⟩,
    ⟨conditionIdResponseEquiv⟩, ⟨collectionIdResponseEquiv⟩,
    ⟨positionIdResponseEquiv⟩, ⟨splitPositionResponseEquiv⟩,
    ⟨mergePositionsResponseEquiv⟩, ⟨redeemPositionsResponseEquiv⟩⟩

/-- C10: a redeem request consists of exactly collateral token, parent
collection ID, condition ID and index sets, with no amount field, unlike a
merge request, which additionally carries an amount; every redeem request
value is determined by those four fields alone. -/
theorem redeem_request_has_no_amount :
    Nonempty (RedeemPositionsRequest ≃ Address × Hash256 × Hash256 × List UInt256) ∧
    Nonempty (MergePositionsRequest ≃ Address × Hash256 × Hash256 × List UInt256 × UInt256) ∧
    ∀ r : RedeemPositionsRequest,
      RedeemPositionsRequest.mk r.collateral_token r.parent_collection_id
        r.condition_id r.index_sets = r :=
  ⟨⟨redeemPositionsRequestEquiv⟩, ⟨mergePositionsRequestEquiv⟩, fun _ => rfl⟩

/-- C1 counterexample: CollectionIdRequest has no builder default for
parent_collection_id, so building it with that field unspecified produces
no request at all, in particular not one with the zero parent. -/
theorem collectionIdRequest_requires_parent_cex :
    CollectionIdRequestBuilder.build ⟨none, some 1, some 1⟩ = none := rfl

/-- C1 amended: among the request types with a parent_collection_id field,
exactly SplitPositionRequest, MergePositionsRequest and
RedeemPositionsRequest default it to the all-zero hash when it is left
unspecified; CollectionIdRequest requires it, and its builder yields no
request while the field is unset. -/
theorem parent_collection_id_default_zero (ct : Address) (cid : Hash256)
    (part isets : List UInt256) (amt : UInt256) (b : CollectionIdRequestBuilder) :
    SplitPositionRequestBuilder.build ⟨some ct, none, some cid, some part, some amt⟩
      = some ⟨ct, 0, cid, part, amt⟩ ∧
    MergePositionsRequestBuilder.build ⟨some ct, none, some cid, some part, some amt⟩
      = some ⟨ct, 0, cid, part, amt⟩ ∧
    RedeemPositionsRequestBuilder.build ⟨some ct, none, some cid, some isets⟩
      = some ⟨ct, 0, cid, isets⟩ ∧
    (b.parent_collection_id = none → b.build = none) := by
  refine ⟨rfl, rfl, rfl, fun h => ?_⟩
  obtain ⟨pc, c, i⟩ := b
  simp only at h
  subst h
  cases c <;> cases i <;> rfl

/-- Witness for the amended C1 at concrete inputs. -/
theorem parent_collection_id_default_zero_witness :
    SplitPositionRequestBuilder.build ⟨some 1, none, some 1, some [1, 2], some 1⟩
      = some ⟨1, 0, 1, [1, 2], 1⟩ ∧
    CollectionIdRequestBuilder.build ⟨none, some 2, some 2⟩ = none :=
  ⟨(parent_collection_id_default_zero 1 1 [1, 2] [1] 1 ⟨none, some 2, some 2⟩).1,
   (parent_collection_id_default_zero 1 1 [1, 2] [1] 1
      ⟨none, some 2, some 2⟩).2.2.2 rfl⟩

/-- C7 counterexample: the derived builders of request.rs validate nothing.
Building a split request with an empty partition and a zero amount
succeeds, even though both values violate the documented invariants, as the
validator itself attests for the empty partition. -/
theorem eager_validation_cex :
    SplitPositionRequestBuilder.build ⟨some 1, some 0, some 1, some [], some 0⟩
      = some ⟨1, 0, 1, [], 0⟩ ∧
    validate [] 2 = .error .EmptyPartition := ⟨rfl, rfl⟩

/-- C7 amended: request builders perform no validation at build time; they
accept every combination of supplied field values verbatim, including an
empty partition and a zero amount, and invariant checking is left to the
separate validator. -/
theorem builders_do_not_validate (ct : Address) (pcid cid : Hash256)
    (part : List UInt256) (n : UInt256) :
    SplitPositionRequestBuilder.build ⟨some ct, some pcid, some cid, some [], some 0⟩
      = some ⟨ct, pcid, cid, [], 0⟩ ∧
    MergePositionsRequestBuilder.build ⟨some ct, some pcid, some cid, some part, some 0⟩
      = some ⟨ct, pcid, cid, part, 0⟩ ∧
    RedeemPositionsRequestBuilder.build ⟨some ct, some pcid, some cid, some []⟩
      = some ⟨ct, pcid, cid, []⟩ ∧
    ConditionIdRequestBuilder.build ⟨some ct, some cid, some 0⟩
      = some ⟨ct, cid, 0⟩ ∧
    validate [] n = .error .EmptyPartition :=
  ⟨rfl, rfl, rfl, rfl, rfl⟩

/-- C9: round-trip identity of every builder. Building any of the six
request types with all fields supplied yields exactly the record of the
supplied values, so every field projects back unchanged. -/
theorem builders_store_fields_verbatim (o ct : Address)
    (q pcid cid coll : Hash256) (n i amt : UInt256) (part isets : List UInt256) :
    ConditionIdRequestBuilder.build ⟨some o, some q, some n⟩ = some ⟨o, q, n⟩ ∧
    CollectionIdRequestBuilder.build ⟨some pcid, some cid, some i⟩
      = some ⟨pcid, cid, i⟩ ∧
    PositionIdRequestBuilder.build ⟨some ct, some coll⟩ = some ⟨ct, coll⟩ ∧
    SplitPositionRequestBuilder.build ⟨some ct, some pcid, some cid, some part, some amt⟩
      = some ⟨ct, pcid, cid, part, amt⟩ ∧
    MergePositionsRequestBuilder.build ⟨some ct, some pcid, some cid, some part, some amt⟩
      = some ⟨ct, pcid, cid, part, amt⟩ ∧
    RedeemPositionsRequestBuilder.build ⟨some ct, some pcid, some cid, some isets⟩
      = some ⟨ct, pcid, cid, isets⟩ :=
  ⟨rfl, rfl, rfl, rfl, rfl, rfl⟩

/-- C4: deriveConditionId fails with InvalidSlotCount exactly when the slot
count is below two or above the maximum supported width, and on every other
input it returns the derived condition ID. -/
theorem deriveConditionId_slot_count_check (oracle : Address) (q : Hash256)
    (n : UInt256) :
    (deriveConditionId oracle q n = .error .InvalidSlotCount ↔
      n.val < 2 ∨ MAX_OUTCOME_SLOT_COUNT < n.val) ∧
    (2 ≤ n.val → n.val ≤ MAX_OUTCOME_SLOT_COUNT →
      deriveConditionId oracle q n = .ok (conditionHash oracle q n)) := by
  unfold deriveConditionId
  constructor
  · split_ifs with h
    · simp [h]
    · simp [h]
  · intro h1 h2
    rw [if_neg]
    push_neg
    exact ⟨h1, h2⟩

/-- Witness for C4 at a binary-market slot count. -/
theorem deriveConditionId_slot_count_check_witness :
    deriveConditionId 1 1 2 = .ok (conditionHash 1 1 2) :=
  (deriveConditionId_slot_count_check 1 1 2).2 (by decide) (by decide)

/-- C5: deriveCollectionId never collides across parents: for any valid
index set and any two distinct parent collection IDs, in particular a
non-zero parent against the zero parent, the derived collection IDs
differ. -/
theorem deriveCollectionId_parent_no_collision (p1 p2 cid : Hash256)
    (i n : UInt256) (hset : i.val ≠ 0 ∧ i.val < 2 ^ n.val) (hne : p1 ≠ p2) :
    deriveCollectionId p1 cid i n ≠ deriveCollectionId p2 cid i n := by
  have hguard : ¬ (i.val = 0 ∨ 2 ^ n.val ≤ i.val) := by
    push_neg
    exact hset
  simp only [deriveCollectionId, if_neg hguard]
  intro h
  exact hne (add_right_cancel (Except.ok.inj h))

/-- Witness for C5: the zero parent against parent one. -/
theorem deriveCollectionId_parent_no_collision_witness :
    deriveCollectionId 0 1 1 2 ≠ deriveCollectionId 1 1 1 2 :=
  deriveCollectionId_parent_no_collision 0 1 1 1 2 ⟨by decide, by decide⟩
    (by decide)

/-- C6: the core operations are deterministic pure functions of their
explicit inputs: identical inputs to deriveConditionId give identical
results, and a successful derivation on the valid slot range; the validator
and the request builders likewise depend only on their argument values. -/
theorem core_operations_deterministic (o1 o2 : Address) (q1 q2 : Hash256)
    (n1 n2 : UInt256) (p : List UInt256) (m : UInt256)
    (b : SplitPositionRequestBuilder) :
    (o1 = o2 → q1 = q2 → n1 = n2 →
      deriveConditionId o1 q1 n1 = deriveConditionId o2 q2 n2) ∧
    (2 ≤ n1.val → n1.val ≤ MAX_OUTCOME_SLOT_COUNT →
      deriveConditionId o1 q1 n1 = .ok (conditionHash o1 q1 n1)) ∧
    validate p m = validate p m ∧
    b.build = b.build := by
  refine ⟨fun h1 h2 h3 => by rw [h1, h2, h3], fun h1 h2 => ?_, rfl, rfl⟩
  unfold deriveConditionId
  rw [if_neg]
  push_neg
  exact ⟨h1, h2⟩

/-- Witness for C6 at concrete inputs. -/
theorem core_operations_deterministic_witness :
    deriveConditionId 1 1 2 = deriveConditionId 1 1 2 ∧
    deriveConditionId 1 1 2 = .ok (conditionHash 1 1 2) :=
  ⟨(core_operations_deterministic 1 1 1 1 2 2 [1] 2
      ⟨some 1, none, some 1, some [1], some 1⟩).1 rfl rfl rfl,
   (core_operations_deterministic 1 1 1 1 2 2 [1] 2
      ⟨some 1, none, some 1, some [1], some 1⟩).2.1 (by decide) (by decide)⟩

/-- C8: a condition-ID request consists of exactly oracle address, question
hash and outcome slot count; on the valid slot range the derivation yields
a 256-bit condition ID, and the response carries exactly that hash. -/
theorem condition_id_request_components :
    Nonempty (ConditionIdRequest ≃ Address × Hash256 × UInt256) ∧
    Nonempty (ConditionIdResponse ≃ Hash256) ∧
    ∀ r : ConditionIdRequest, 2 ≤ r.outcome_slot_count.val →
      r.outcome_slot_count.val ≤ MAX_OUTCOME_SLOT_COUNT →
      ∃ c : Hash256,
        deriveConditionId r.oracle r.question_id r.outcome_slot_count = .ok c ∧
        (ConditionIdResponse.mk c).condition_id = c := by
  refine ⟨⟨conditionIdRequestEquiv⟩, ⟨conditionIdResponseEquiv⟩,
    fun r h1 h2 => ?_⟩
  refine ⟨conditionHash r.oracle r.question_id r.outcome_slot_count, ?_, rfl⟩
  unfold deriveConditionId
  rw [if_neg]
  push_neg
  exact ⟨h1, h2⟩

/-- Witness for C8 at a concrete binary-market request. -/
theorem condition_id_request_components_witness :
    ∃ c : Hash256, deriveConditionId (1 : Address) 1 2 = .ok c ∧
      (ConditionIdResponse.mk c).condition_id = c :=
  condition_id_request_components.2.2 ⟨1, 1, 2⟩ (by decide) (by decide)

/-- C3: the partition validator performs its checks in the fixed order of
the specification with short-circuiting: an empty partition reports
EmptyPartition; otherwise an entry that is zero or at least two to the slot
count reports IndexSetOutOfRange; otherwise two entries sharing a bit
report OverlappingIndexSets; otherwise a duplicated entry reports
DuplicateIndexSet; otherwise validation succeeds. -/
theorem validate_check_order (p : List UInt256) (n : UInt256) :
    (validate p n = .error .EmptyPartition ↔ p = []) ∧
    (validate p n = .error .IndexSetOutOfRange ↔
      p ≠ [] ∧ ∃ s ∈ p, s.val = 0 ∨ 2 ^ n.val ≤ s.val) ∧
    (validate p n = .error .OverlappingIndexSets ↔
      p ≠ [] ∧ (∀ s ∈ p, s.val ≠ 0 ∧ s.val < 2 ^ n.val) ∧
        ¬ List.Pairwise (fun s t => s.val &&& t.val = 0) p) ∧
    (validate p n = .error .DuplicateIndexSet ↔
      p ≠ [] ∧ (∀ s ∈ p, s.val ≠ 0 ∧ s.val < 2 ^ n.val) ∧
        List.Pairwise (fun s t => s.val &&& t.val = 0) p ∧ ¬ p.Nodup) ∧
    (validate p n = .ok () ↔
      p ≠ [] ∧ (∀ s ∈ p, s.val ≠ 0 ∧ s.val < 2 ^ n.val) ∧
        List.Pairwise (fun s t => s.val &&& t.val = 0) p ∧ p.Nodup) := by
  have hiff : (¬ ∃ s ∈ p, s.val = 0 ∨ 2 ^ n.val ≤ s.val) ↔
      ∀ s ∈ p, s.val ≠ 0 ∧ s.val < 2 ^ n.val := by
    push_neg
    exact Iff.rfl
  unfold validate
  split_ifs with h1 h2 h3 h4
  · subst h1
    simp
  · have h2' : ¬ ∀ s ∈ p, s.val ≠ 0 ∧ s.val < 2 ^ n.val :=
      fun hall => (hiff.mpr hall) h2
    simp_all
  · have h2' := hiff.mp h2
    simp_all
  · have h2' := hiff.mp h2
    simp_all [not_not]
  · have h2' := hiff.mp h2
    simp_all [not_not]

end CtfClient
